import Mathlib

/-!
Verification of the device state and control core of the ESP32
web-controlled thermostat firmware (`src/main.cpp`).

The embedding models:
* the EEPROM-backed range store (slots: bootstrap marker byte, lower
  bound, upper bound) together with counters of the writes and commits
  performed on it, so that frame/effect properties can be stated;
* the in-memory `TempRange` working copy and the operations
  `initTempRange`, `saveTempRangeToEEPROM`, `onReset`,
  `onSaveThresholds` acting on it;
* the trigger classification of `checkForTriggers` / `onTemp`;
* the two LED beacon schedulers `flashWiFiBeacon` / `flashTempBeacon`
  driven by the 32-bit millisecond clock.

Temperatures are `float_t` in the firmware; only equality and order
comparisons are ever performed on them (no arithmetic), so they are
modelled by `ℚ`, with the NaN result of a failed sensor read modelled
as `Option.none` (the firmware guards every use of a reading with
`isnan` before comparing). Clock values are the `uint32_t` readings of
`millis()`, modelled by `Nat` with the wrap-around subtraction made
explicit.
-/

/-- Sentinel byte marking that the range was saved at least once
(`INIT_FLAG = 42` in the firmware). -/
def INIT_FLAG : Nat := 42

/-- Factory default lower bound (`MIN_TEMP = 10`). -/
def MIN_TEMP : ℚ := 10

/-- Factory default upper bound (`MAX_TEMP = 14`). -/
def MAX_TEMP : ℚ := 14

/-- The in-memory operating range (`struct TempRange`). -/
structure TempRange where
  initialized : Bool
  lower : ℚ
  upper : ℚ
deriving DecidableEq, Repr

/-- The EEPROM range store: the three slots (marker byte at
`ADDR_INIT_FLAG`, floats at `ADDR_MIN_TEMP` / `ADDR_MAX_TEMP`)
together with counters of slot writes and commits, so that
write-avoidance claims can be stated. -/
structure EEPROMData where
  initFlag : Nat
  minTemp : ℚ
  maxTemp : ℚ
  flagWrites : Nat
  minWrites : Nat
  maxWrites : Nat
  commits : Nat
deriving DecidableEq, Repr

/-- Effect of `EEPROM.writeByte(ADDR_INIT_FLAG, v)`. -/
def EEPROMData.writeInitFlag (v : Nat) (e : EEPROMData) : EEPROMData :=
  { e with initFlag := v, flagWrites := e.flagWrites + 1 }

/-- Effect of `EEPROM.writeFloat(ADDR_MIN_TEMP, v)`. -/
def EEPROMData.writeMinTemp (v : ℚ) (e : EEPROMData) : EEPROMData :=
  { e with minTemp := v, minWrites := e.minWrites + 1 }

/-- Effect of `EEPROM.writeFloat(ADDR_MAX_TEMP, v)`. -/
def EEPROMData.writeMaxTemp (v : ℚ) (e : EEPROMData) : EEPROMData :=
  { e with maxTemp := v, maxWrites := e.maxWrites + 1 }

/-- Effect of `EEPROM.commit()`. -/
def EEPROMData.commit (e : EEPROMData) : EEPROMData :=
  { e with commits := e.commits + 1 }

/-- The firmware's file-scope mutable state: the in-memory range, the
EEPROM store, and the variables driving the two LED indicators
(`readingTemperature`, `startRead`, and the output levels of
`INIT_LED` and `TEMP_LED`, `true` meaning HIGH). -/
structure DeviceState where
  tempRange : TempRange
  eeprom : EEPROMData
  readingTemperature : Bool
  startRead : Nat
  initLed : Bool
  tempLed : Bool
deriving DecidableEq, Repr

/-- The state effect of `initTempRange()`: reads the marker byte and the
two float slots and derives the in-memory range; the EEPROM is only
read, never written. -/
def initTempRange (s : DeviceState) : DeviceState :=
  let minTemp := s.eeprom.minTemp
  let maxTemp := s.eeprom.maxTemp
  let initialized := s.eeprom.initFlag == INIT_FLAG
  { s with tempRange :=
      { initialized := initialized
        lower := if initialized then minTemp else MIN_TEMP
        upper := if initialized then maxTemp else MAX_TEMP } }

/-- Translation of `saveTempRangeToEEPROM(lower, upper)`: each bound is
compared with the in-memory value; a differing bound updates the
in-memory copy and writes its slot (`step1` is the lower-bound block,
`step2` the upper-bound block, each carrying the running
`tempRange × eeprom × hasToBeSaved` values); if anything changed, the
marker is written when not yet initialized (`step3`), and a single
commit ends the call. -/
def saveTempRangeToEEPROM (lower upper : ℚ) (s : DeviceState) : DeviceState :=
  let step1 : TempRange × EEPROMData × Bool :=
    if lower ≠ s.tempRange.lower then
      ({ s.tempRange with lower := lower }, s.eeprom.writeMinTemp lower, true)
    else
      (s.tempRange, s.eeprom, false)
  let step2 : TempRange × EEPROMData × Bool :=
    if upper ≠ step1.1.upper then
      ({ step1.1 with upper := upper }, step1.2.1.writeMaxTemp upper, true)
    else
      (step1.1, step1.2.1, step1.2.2)
  if step2.2.2 then
    let step3 : TempRange × EEPROMData :=
      if !step2.1.initialized then
        ({ step2.1 with initialized := true }, step2.2.1.writeInitFlag INIT_FLAG)
      else
        (step2.1, step2.2.1)
    { s with tempRange := step3.1, eeprom := step3.2.commit }
  else
    { s with tempRange := step2.1, eeprom := step2.2.1 }

/-- Which of the two user trigger hooks fires. -/
inductive Trigger where
  | low
  | high
deriving DecidableEq, Repr

/-- Translation of `checkForTriggers(temp)`: the below-range check has
priority over the above-range one (an `else if` chain). Returns which
hook is invoked, `none` when neither is. -/
def checkForTriggers (temp : ℚ) (tr : TempRange) : Option Trigger :=
  if temp < tr.lower then
    some Trigger.low
  else if temp > tr.upper then
    some Trigger.high
  else
    none

/-- Trigger dispatch of the `/temp` handler `onTemp`: a NaN reading
(modelled `none`) is caught by `isnan` and never reaches
`checkForTriggers`. -/
def onTemp (reading : Option ℚ) (tr : TempRange) : Option Trigger :=
  match reading with
  | none => none
  | some t => checkForTriggers t tr

/-- The state effect of `onReset`: writes the erase byte `0xff` to the
marker slot and commits only when currently initialized, then resets
the in-memory range to the factory defaults. -/
def onReset (s : DeviceState) : DeviceState :=
  let ee :=
    if s.tempRange.initialized then
      (s.eeprom.writeInitFlag 0xff).commit
    else
      s.eeprom
  { s with
      tempRange := { initialized := false, lower := MIN_TEMP, upper := MAX_TEMP }
      eeprom := ee }

/-- The `/savethresholds` handler `onSaveThresholds`: when both the
`lower` and `upper` request parameters are present (modelled as
already-parsed `Option ℚ` values, since `toFloat` is total), the range
is saved; in every case the request is answered with status 200. -/
def onSaveThresholds (pLower pUpper : Option ℚ) (s : DeviceState) : DeviceState × Nat :=
  match pLower, pUpper with
  | some lower, some upper => (saveTempRangeToEEPROM lower upper s, 200)
  | _, _ => (s, 200)

/-- The beacon side effect of `readTemperature()` at clock value `t`:
records the start of the acquisition and raises the in-progress flag. -/
def readTemperature (t : Nat) (s : DeviceState) : DeviceState :=
  { s with startRead := t, readingTemperature := true }

/-- Wrap-around subtraction of `uint32_t` clock values, as computed by
`millis() - startRead`. -/
def u32sub (a b : Nat) : Nat :=
  (a % 2 ^ 32 + (2 ^ 32 - b % 2 ^ 32)) % 2 ^ 32

/-- Translation of `flashWiFiBeacon()` at clock value `t`. -/
def flashWiFiBeacon (t : Nat) (s : DeviceState) : DeviceState :=
  { s with initLed := t % 2000 < 50 }

/-- Translation of `flashTempBeacon()` at clock value `t`: only acts
while an acquisition flash window is open; when the window has elapsed
it lowers the flag and writes LOW once, after which the pin is no
longer driven. -/
def flashTempBeacon (t : Nat) (s : DeviceState) : DeviceState :=
  if s.readingTemperature then
    let r := u32sub t s.startRead < 50
    { s with readingTemperature := r, tempLed := r }
  else
    s

/-- One iteration of `loop()` sampled at clock value `t`. -/
def loopTick (t : Nat) (s : DeviceState) : DeviceState :=
  flashTempBeacon t (flashWiFiBeacon t s)

/-- Runs the main loop at the given sequence of sample times. -/
def runTicks (ts : List Nat) (s : DeviceState) : DeviceState :=
  ts.foldl (fun s t => loopTick t s) s

/-- A concrete fresh device state (marker erased, working copy at the
factory defaults), used to instantiate the universally quantified
theorems below. -/
def freshState : DeviceState :=
  { tempRange := { initialized := false, lower := MIN_TEMP, upper := MAX_TEMP }
    eeprom :=
      { initFlag := 0xff, minTemp := 0, maxTemp := 0
        flagWrites := 0, minWrites := 0, maxWrites := 0, commits := 0 }
    readingTemperature := false
    startRead := 0
    initLed := false
    tempLed := false }

/-- A concrete bootstrapped device state (marker set, bounds saved),
used to instantiate the universally quantified theorems below. -/
def savedState : DeviceState :=
  { tempRange := { initialized := true, lower := 10, upper := 14 }
    eeprom :=
      { initFlag := INIT_FLAG, minTemp := 10, maxTemp := 14
        flagWrites := 1, minWrites := 1, maxWrites := 1, commits := 1 }
    readingTemperature := false
    startRead := 0
    initLed := false
    tempLed := false }

lemma u32sub_of_le (a b : Nat) (hba : b ≤ a) (ha : a < 2 ^ 32) : u32sub a b = a - b := by
  have hpow : (2 : Nat) ^ 32 = 4294967296 := by norm_num
  rw [u32sub, hpow]
  omega

lemma runTicks_concat (ts : List Nat) (t : Nat) (s : DeviceState) :
    runTicks (ts ++ [t]) s = loopTick t (runTicks ts s) := by
  simp [runTicks, List.foldl_append]

lemma flashTempBeacon_of_reading (t : Nat) (s : DeviceState)
    (h : s.readingTemperature = true) :
    flashTempBeacon t s =
      { s with readingTemperature := decide (u32sub t s.startRead < 50)
               tempLed := decide (u32sub t s.startRead < 50) } := by
  simp [flashTempBeacon, h]

lemma flashTempBeacon_of_not_reading (t : Nat) (s : DeviceState)
    (h : s.readingTemperature = false) :
    flashTempBeacon t s = s := by
  simp [flashTempBeacon, h]

/-- Main invariant of the activity beacon: after an acquisition at clock
value `T`, running the loop at a nondecreasing sequence of sample times
(all after `T`, all valid 32-bit clock values) leaves `startRead`
untouched and leaves both the in-progress flag and the `TEMP_LED` level
equal to whether the last sample time is still inside the 50 ms
window. -/
lemma beacon_invariant (s0 : DeviceState) (T : Nat) :
    ∀ ts : List Nat, ∀ t : Nat, List.Chain' (· ≤ ·) (ts ++ [t]) →
      (∀ u ∈ ts ++ [t], T ≤ u ∧ u < 2 ^ 32) →
      (runTicks (ts ++ [t]) (readTemperature T s0)).startRead = T ∧
      (runTicks (ts ++ [t]) (readTemperature T s0)).readingTemperature = decide (t < T + 50) ∧
      (runTicks (ts ++ [t]) (readTemperature T s0)).tempLed = decide (t < T + 50) := by
  intro ts
  induction ts using List.reverseRecOn with
  | nil =>
    intro t _ hmem
    obtain ⟨hTt, ht⟩ := hmem t (by simp)
    have hsub : u32sub t T = t - T := u32sub_of_le t T hTt ht
    have hrd : (flashWiFiBeacon t (readTemperature T s0)).readingTemperature = true := by
      simp [flashWiFiBeacon, readTemperature]
    simp only [List.nil_append, runTicks, List.foldl_cons, List.foldl_nil, loopTick]
    rw [flashTempBeacon_of_reading t _ hrd]
    refine ⟨by simp [flashWiFiBeacon, readTemperature], ?_, ?_⟩ <;>
      · simp [flashWiFiBeacon, readTemperature, hsub, decide_eq_decide]
        omega
  | append_singleton ts' t' ih =>
    intro t hchain hmem
    have hre : ts' ++ [t'] ++ [t] = (ts' ++ [t']) ++ [t] := by simp
    have hchain' := hchain
    rw [List.chain'_append] at hchain'
    obtain ⟨hc1, _, hlast⟩ := hchain'
    have ht't : t' ≤ t := hlast t' (by simp [List.getLast?_concat]) t (by simp)
    have hmem' : ∀ u ∈ ts' ++ [t'], T ≤ u ∧ u < 2 ^ 32 := by
      intro u hu
      exact hmem u (by simp at hu ⊢; tauto)
    obtain ⟨hTt, ht⟩ := hmem t (by simp)
    obtain ⟨ih1, ih2, ih3⟩ := ih t' hc1 hmem'
    have hstep : runTicks (ts' ++ [t'] ++ [t]) (readTemperature T s0) =
        loopTick t (runTicks (ts' ++ [t']) (readTemperature T s0)) := by
      rw [hre, runTicks_concat]
    rw [hstep]
    set s' := runTicks (ts' ++ [t']) (readTemperature T s0) with hs'
    have hsub : u32sub t T = t - T := u32sub_of_le t T hTt ht
    by_cases hwin : t' < T + 50
    · have hread : (flashWiFiBeacon t s').readingTemperature = true := by
        simp [flashWiFiBeacon, ih2, hwin]
      rw [loopTick, flashTempBeacon_of_reading t _ hread]
      refine ⟨by simp [flashWiFiBeacon, ih1], ?_, ?_⟩ <;>
        · simp [flashWiFiBeacon, ih1, hsub, decide_eq_decide]
          omega
    · have hread : (flashWiFiBeacon t s').readingTemperature = false := by
        simp [flashWiFiBeacon, ih2, hwin]
      rw [loopTick, flashTempBeacon_of_not_reading t _ hread]
      have htT : ¬ t < T + 50 := by omega
      refine ⟨by simp [flashWiFiBeacon, ih1], ?_, ?_⟩
      · simp [flashWiFiBeacon, ih2, hwin, htT]
      · simp [flashWiFiBeacon, ih3, hwin, htT]

/-- C1: calling the save operation with the bounds currently held in
memory performs no store interaction at all (no slot write, no marker
write, no commit — the write and commit counters are part of the state
equality) and leaves the in-memory range and the whole device state
unchanged. -/
theorem C1_noop_update_no_store (s : DeviceState) :
    saveTempRangeToEEPROM s.tempRange.lower s.tempRange.upper s = s := by
  simp [saveTempRangeToEEPROM]

/-- C2: from an uninitialized controller, a save in which at least one
bound differs from the in-memory value sets the in-memory range to the
new pair with the initialized flag raised, writes the sentinel to the
marker slot (exactly one marker write), and issues exactly one
commit. -/
theorem C2_bootstrap_flagging (s : DeviceState) (lower upper : ℚ)
    (hinit : s.tempRange.initialized = false)
    (hchange : lower ≠ s.tempRange.lower ∨ upper ≠ s.tempRange.upper) :
    (saveTempRangeToEEPROM lower upper s).tempRange =
      { initialized := true, lower := lower, upper := upper } ∧
    (saveTempRangeToEEPROM lower upper s).eeprom.initFlag = INIT_FLAG ∧
    (saveTempRangeToEEPROM lower upper s).eeprom.flagWrites = s.eeprom.flagWrites + 1 ∧
    (saveTempRangeToEEPROM lower upper s).eeprom.commits = s.eeprom.commits + 1 := by
  by_cases h1 : lower = s.tempRange.lower <;>
    by_cases h2 : upper = s.tempRange.upper <;>
      simp_all [saveTempRangeToEEPROM, EEPROMData.writeMinTemp,
        EEPROMData.writeMaxTemp, EEPROMData.writeInitFlag, EEPROMData.commit]

/-- Witness for C2 at the concrete scenario of the spec: a fresh store
and `update(5, 20)`. -/
theorem C2_bootstrap_flagging_witness :
    (saveTempRangeToEEPROM 5 20 freshState).tempRange =
      { initialized := true, lower := 5, upper := 20 } ∧
    (saveTempRangeToEEPROM 5 20 freshState).eeprom.initFlag = INIT_FLAG ∧
    (saveTempRangeToEEPROM 5 20 freshState).eeprom.flagWrites = 1 ∧
    (saveTempRangeToEEPROM 5 20 freshState).eeprom.commits = 1 :=
  C2_bootstrap_flagging freshState 5 20 rfl (Or.inl (by norm_num [freshState, MIN_TEMP]))

/-- C3 (counterexample): the claim's biconditional "the evaluator yields
AboveRange iff the reading is a valid number above the upper bound"
fails on an inverted range: with range `[10, 5]` (which the update path
accepts, see C9) the valid reading `7` satisfies `7 > 5`, yet the
evaluator yields BelowRange, not AboveRange, because the below-range
branch of the `else if` chain wins. -/
theorem C3_threshold_iff_counterexample :
    (7 : ℚ) > 5 ∧
    onTemp (some 7) { initialized := true, lower := 10, upper := 5 } ≠ some Trigger.high ∧
    onTemp (some 7) { initialized := true, lower := 10, upper := 5 } = some Trigger.low := by
  refine ⟨by norm_num, ?_, ?_⟩ <;> simp only [onTemp, checkForTriggers] <;> norm_num
  decide

/-- C3 (amended): for every range whose bounds are ordered
(`lower ≤ upper`), the evaluator yields BelowRange iff the reading is a
valid number strictly below the lower bound, AboveRange iff it is a
valid number strictly above the upper bound, and nothing otherwise; an
invalid (NaN) reading always yields nothing. -/
theorem C3_threshold_classification (v : Option ℚ) (tr : TempRange)
    (h : tr.lower ≤ tr.upper) :
    (onTemp v tr = some Trigger.low ↔ ∃ x, v = some x ∧ x < tr.lower) ∧
    (onTemp v tr = some Trigger.high ↔ ∃ x, v = some x ∧ x > tr.upper) ∧
    (onTemp v tr = none ↔ ∀ x, v = some x → tr.lower ≤ x ∧ x ≤ tr.upper) := by
  cases v with
  | none => simp [onTemp]
  | some x =>
    simp only [onTemp, checkForTriggers]
    split_ifs with hlt hgt
    · refine ⟨⟨fun _ => ⟨x, rfl, hlt⟩, fun _ => rfl⟩, ⟨fun hc => by simp at hc, ?_⟩,
        ⟨fun hc => by simp at hc, ?_⟩⟩
      · rintro ⟨y, hy, hgty⟩
        injection hy with hy
        subst hy
        exact absurd hgty (by linarith)
      · intro hall
        exact absurd (hall x rfl).1 (by linarith)
    · refine ⟨⟨fun hc => by simp at hc, ?_⟩, ⟨fun _ => ⟨x, rfl, hgt⟩, fun _ => rfl⟩,
        ⟨fun hc => by simp at hc, ?_⟩⟩
      · rintro ⟨y, hy, hlty⟩
        injection hy with hy
        subst hy
        exact absurd hlty hlt
      · intro hall
        exact absurd (hall x rfl).2 (by linarith)
    · refine ⟨⟨fun hc => by simp at hc, ?_⟩, ⟨fun hc => by simp at hc, ?_⟩,
        ⟨fun _ y hy => ?_, fun _ => rfl⟩⟩
      · rintro ⟨y, hy, hlty⟩
        injection hy with hy
        subst hy
        exact absurd hlty hlt
      · rintro ⟨y, hy, hgty⟩
        injection hy with hy
        subst hy
        exact absurd hgty hgt
      · injection hy with hy
        subst hy
        exact ⟨le_of_not_lt hlt, le_of_not_lt hgt⟩

/-- Witness for C3 (amended) at the spec's scenario: range `[10, 14]`,
reading `9` below the lower bound fires the low trigger. -/
theorem C3_threshold_classification_witness :
    onTemp (some 9) { initialized := true, lower := 10, upper := 14 } = some Trigger.low :=
  (C3_threshold_classification (some 9) { initialized := true, lower := 10, upper := 14 }
    (by norm_num)).1.mpr ⟨9, rfl, by norm_num⟩

/-- C4: at startup the range initializer never writes to the store, and
sets the in-memory range to the persisted bounds with the flag raised
when the marker equals the sentinel (no clamping), and to the factory
defaults with the flag lowered otherwise. -/
theorem C4_bootstrap_read_only (s : DeviceState) :
    (initTempRange s).eeprom = s.eeprom ∧
    (initTempRange s).tempRange =
      (if s.eeprom.initFlag = INIT_FLAG then
        { initialized := true, lower := s.eeprom.minTemp, upper := s.eeprom.maxTemp }
      else
        { initialized := false, lower := MIN_TEMP, upper := MAX_TEMP }) := by
  by_cases h : s.eeprom.initFlag = INIT_FLAG <;> simp [initTempRange, h]

/-- C5: when the controller is initialized, a save that keeps the lower
bound and changes the upper bound writes only the upper slot followed by
exactly one commit (the resulting store equals the old store with one
upper-slot write and one commit applied, so the lower slot and the
marker slot are untouched), and only the in-memory upper bound
changes. -/
theorem C5_partial_bound_change (s : DeviceState) (upper : ℚ)
    (hinit : s.tempRange.initialized = true)
    (hne : upper ≠ s.tempRange.upper) :
    (saveTempRangeToEEPROM s.tempRange.lower upper s).tempRange =
      { initialized := true, lower := s.tempRange.lower, upper := upper } ∧
    (saveTempRangeToEEPROM s.tempRange.lower upper s).eeprom =
      (s.eeprom.writeMaxTemp upper).commit := by
  simp [saveTempRangeToEEPROM, hne, hinit]

/-- Witness for C5 at the spec's scenario: bootstrapped range `[10, 14]`
updated to `[10, 18]`. -/
theorem C5_partial_bound_change_witness :
    (saveTempRangeToEEPROM 10 18 savedState).tempRange =
      { initialized := true, lower := 10, upper := 18 } ∧
    (saveTempRangeToEEPROM 10 18 savedState).eeprom =
      (savedState.eeprom.writeMaxTemp 18).commit :=
  C5_partial_bound_change savedState 18 rfl (by norm_num [savedState])

/-- C6: starting from an initialized controller, the first reset writes
the erase byte `0xff` to the marker slot and commits once, the second
reset performs no store interaction at all (the store after the second
call equals the store after the first), and after both calls the
in-memory range equals the factory defaults with the initialized flag
lowered. -/
theorem C6_reset_twice (s : DeviceState)
    (hinit : s.tempRange.initialized = true) :
    (onReset s).tempRange =
      { initialized := false, lower := MIN_TEMP, upper := MAX_TEMP } ∧
    (onReset (onReset s)).tempRange =
      { initialized := false, lower := MIN_TEMP, upper := MAX_TEMP } ∧
    (onReset s).eeprom = (s.eeprom.writeInitFlag 0xff).commit ∧
    (onReset (onReset s)).eeprom = (onReset s).eeprom := by
  simp [onReset, hinit]

/-- Witness for C6 at the concrete bootstrapped state. -/
theorem C6_reset_twice_witness :
    (onReset savedState).tempRange =
      { initialized := false, lower := MIN_TEMP, upper := MAX_TEMP } ∧
    (onReset (onReset savedState)).tempRange =
      { initialized := false, lower := MIN_TEMP, upper := MAX_TEMP } ∧
    (onReset savedState).eeprom = (savedState.eeprom.writeInitFlag 0xff).commit ∧
    (onReset (onReset savedState)).eeprom = (onReset savedState).eeprom :=
  C6_reset_twice savedState rfl

/-- C7: after an acquisition at clock value `T` and no subsequent
acquisition, at every loop tick of a nondecreasing schedule of sample
times (all at or after `T` and within the 32-bit clock range) the
`TEMP_LED` output is HIGH exactly when that tick's sample time is
within the 50 ms window `[T, T + 50)`; in particular it is LOW at every
tick at or after `T + 50`, and stays LOW at all later ticks. -/
theorem C7_activity_flash_decay (s0 : DeviceState) (T t : Nat)
    (ts₁ ts₂ : List Nat)
    (hchain : List.Chain' (· ≤ ·) (ts₁ ++ t :: ts₂))
    (hmem : ∀ u ∈ ts₁ ++ t :: ts₂, T ≤ u ∧ u < 2 ^ 32) :
    (runTicks (ts₁ ++ [t]) (readTemperature T s0)).tempLed = decide (t < T + 50) := by
  have hsplit : ts₁ ++ t :: ts₂ = (ts₁ ++ [t]) ++ ts₂ := by simp
  rw [hsplit] at hchain hmem
  rw [List.chain'_append] at hchain
  have hmem' : ∀ u ∈ ts₁ ++ [t], T ≤ u ∧ u < 2 ^ 32 := fun u hu =>
    hmem u (List.mem_append_left _ hu)
  exact (beacon_invariant s0 T ts₁ t hchain.1 hmem').2.2

/-- Witness for C7: acquisition at clock value 100, ticks at 120 (inside
the window, LED HIGH) and 160 (window elapsed, LED LOW). -/
theorem C7_activity_flash_decay_witness :
    (runTicks [120, 160] (readTemperature 100 freshState)).tempLed = false := by
  have h := C7_activity_flash_decay freshState 100 160 [120] []
    (by simp) (by intro u hu; simp at hu; rcases hu with h | h <;> subst h <;> norm_num)
  simpa using h

/-- C8: at every loop tick sampled at clock value `t`, the WiFi
connectivity LED is HIGH iff `t mod 2000 < 50`, independently of the
whole prior device state (range, reading flags, previous LED levels). -/
theorem C8_wifi_beacon_periodic (t : Nat) (s : DeviceState) :
    (loopTick t s).initLed = decide (t % 2000 < 50) := by
  simp only [loopTick, flashWiFiBeacon, flashTempBeacon]
  split <;> rfl

/-- C9: the save operation never rejects a pair: for every pair of
bounds, including inverted pairs with `lower > upper`, the in-memory
range afterwards is exactly the supplied pair — no ordering validation,
clamping or swapping happens anywhere in the update path. -/
theorem C9_no_ordering_validation (s : DeviceState) (lower upper : ℚ) :
    (saveTempRangeToEEPROM lower upper s).tempRange.lower = lower ∧
    (saveTempRangeToEEPROM lower upper s).tempRange.upper = upper := by
  by_cases h1 : lower = s.tempRange.lower <;>
    by_cases h2 : upper = s.tempRange.upper <;>
      by_cases h3 : s.tempRange.initialized <;>
        simp [saveTempRangeToEEPROM, h1, h2, h3, EEPROMData.writeMinTemp,
          EEPROMData.writeMaxTemp, EEPROMData.writeInitFlag, EEPROMData.commit]

/-- C10: when the range-update request misses the `lower` or the `upper`
parameter, the handler changes nothing at all — in-memory range,
bootstrap flag and store (writes and commits included) are exactly as
before — and still answers with status 200. -/
theorem C10_missing_param_noop (pLower pUpper : Option ℚ) (s : DeviceState)
    (h : pLower = none ∨ pUpper = none) :
    onSaveThresholds pLower pUpper s = (s, 200) := by
  cases pLower <;> cases pUpper <;> simp_all [onSaveThresholds]

/-- Witness for C10: a request carrying only the `upper` parameter. -/
theorem C10_missing_param_noop_witness :
    onSaveThresholds none (some 5) freshState = (freshState, 200) :=
  C10_missing_param_noop none (some 5) freshState (Or.inl rfl)
